import Mathlib

/-
Verification of the seq_llm process supervisor and streaming decoder.

This file is a shallow embedding of the parts of the repository that the
specification talks about:

  * src/seq_llm/core/api_client.py, APIClient.stream_chat (lines 53-101):
    the server-sent-event stream decoder, together with a model of Python
    values, Python truthiness, the exceptions the extraction code can raise,
    and a model of json.loads.
  * src/seq_llm/core/server_manager.py, ServerManager:
    _is_allowed_reclaim_process (51-58), _format_process_identity (60-72),
    _reclaim_port_processes (74-111), start (113-148), stop (150-159) and
    the backoff recurrence of wait_for_health (166-181).

Strings are modelled as lists of characters so that every definition is
executable by kernel reduction.  Effectful steps (the port probe, the
process table, the spawned pid, the health poll outcome) are supplied by an
explicit environment record, and the calls that the code makes on the
operating system (process terminations, the spawn, the child environment)
are returned as data so theorems can speak about them.
-/

def cs (s : String) : List Char := s.data

/-- Python values as produced by json.loads: None, bool, int, float, str,
list and dict (dict keys in JSON are always strings).  Floats are kept as
mantissa times a power of ten, which is enough to decide truthiness. -/
inductive PyVal where
  | noneV
  | boolV (b : Bool)
  | intV (n : Int)
  | floatV (mantissa : Int) (exp10 : Int)
  | strV (s : List Char)
  | listV (xs : List PyVal)
  | dictV (kvs : List (List Char × PyVal))

/-- Python truthiness: None, False, 0, 0.0, empty string, empty list and
empty dict are falsy, everything else is truthy. -/
def truthy : PyVal → Bool
  | PyVal.noneV => false
  | PyVal.boolV b => b
  | PyVal.intV n => n ≠ 0
  | PyVal.floatV m _ => m ≠ 0
  | PyVal.strV s => ¬ s.isEmpty
  | PyVal.listV xs => ¬ xs.isEmpty
  | PyVal.dictV kvs => ¬ kvs.isEmpty

/-- Exceptions that the decoder body can raise, plus the httpx
HTTPStatusError raised by Response.raise_for_status. -/
inductive PyErr where
  | attributeError
  | typeError
  | keyError
  | indexError
  | httpStatusError
deriving DecidableEq

/-- Lookup in a Python dict: first binding wins, absent key gives None
(this is dict.get with its default of None). -/
def dlookup : List (List Char × PyVal) → List Char → PyVal
  | [], _ => PyVal.noneV
  | (k, v) :: rest, key => if k = key then v else dlookup rest key

/-- Attribute access payload.get(key): dicts answer, every other value
raises AttributeError (ints, strings, lists and None have no .get). -/
def pyGet (v : PyVal) (key : List Char) : Except PyErr PyVal :=
  match v with
  | PyVal.dictV kvs => Except.ok (dlookup kvs key)
  | _ => Except.error PyErr.attributeError

/-- Variant of get used after an isinstance(x, dict) guard, hence total. -/
def dictGetD (v : PyVal) (key : List Char) : PyVal :=
  match v with
  | PyVal.dictV kvs => dlookup kvs key
  | _ => PyVal.noneV

/-- Python a or b. -/
def pyOr (a b : PyVal) : PyVal := if truthy a then a else b

/-- Python isinstance(v, dict). -/
def isDict : PyVal → Bool
  | PyVal.dictV _ => true
  | _ => false

/-- Python v[0]: lists and strings are subscriptable, a dict raises
KeyError (0 is never one of its string keys), other values TypeError. -/
def pySubscriptZero (v : PyVal) : Except PyErr PyVal :=
  match v with
  | PyVal.listV (x :: _) => Except.ok x
  | PyVal.listV [] => Except.error PyErr.indexError
  | PyVal.strV (c :: _) => Except.ok (PyVal.strV [c])
  | PyVal.strV [] => Except.error PyErr.indexError
  | PyVal.dictV _ => Except.error PyErr.keyError
  | _ => Except.error PyErr.typeError

/-- JSON whitespace. -/
def skipWs : List Char → List Char
  | c :: rest =>
    if c = ' ' ∨ c = '\t' ∨ c = '\n' ∨ c = '\r' then skipWs rest else c :: rest
  | [] => []

/-- Single-character JSON string escapes. -/
def escChar (c : Char) : Option Char :=
  if c = '"' then some '"'
  else if c = '\\' then some '\\'
  else if c = '/' then some '/'
  else if c = 'n' then some '\n'
  else if c = 't' then some '\t'
  else if c = 'r' then some '\r'
  else if c = 'b' then some (Char.ofNat 8)
  else if c = 'f' then some (Char.ofNat 12)
  else Option.none

/-- Body of a JSON string after the opening quote, returning the decoded
characters and the remainder after the closing quote. -/
def parseStrBody : Nat → List Char → Option (List Char × List Char)
  | _, [] => Option.none
  | 0, _ => Option.none
  | fuel + 1, c :: rest =>
    if c = '"' then some ([], rest)
    else if c = '\\' then
      match rest with
      | e :: rest2 =>
        match escChar e with
        | some ec => (parseStrBody fuel rest2).map (fun p => (ec :: p.1, p.2))
        | Option.none => Option.none
      | [] => Option.none
    else (parseStrBody fuel rest).map (fun p => (c :: p.1, p.2))

def isDigitCh (c : Char) : Bool := '0' ≤ c ∧ c ≤ '9'

def spanDigits : List Char → List Char × List Char
  | [] => ([], [])
  | c :: rest =>
    if isDigitCh c then
      let p := spanDigits rest
      (c :: p.1, p.2)
    else ([], c :: rest)

def digitsToNat (ds : List Char) : Nat :=
  ds.foldl (fun acc c => acc * 10 + (c.toNat - '0'.toNat)) 0

/-- JSON number: optional minus, digits, optional fraction, optional
exponent.  A number with a fraction or exponent becomes a float value. -/
def parseNumber (s : List Char) : Option (PyVal × List Char) :=
  let (neg, s1) := match s with
    | '-' :: rest => (true, rest)
    | _ => (false, s)
  let (ds, s2) := spanDigits s1
  if ds.isEmpty then Option.none
  else
    let intPart : Nat := digitsToNat ds
    let (fracDs, s3, isFloat1) := match s2 with
      | '.' :: r =>
        let p := spanDigits r
        (p.1, p.2, true)
      | _ => ([], s2, false)
    if isFloat1 ∧ fracDs.isEmpty then Option.none
    else
      let (expOk, expVal, s4, isFloat2) := match s3 with
        | 'e' :: r | 'E' :: r =>
          let (esign, r1) := match r with
            | '-' :: rr => ((-1 : Int), rr)
            | '+' :: rr => ((1 : Int), rr)
            | _ => ((1 : Int), r)
          let p := spanDigits r1
          if p.1.isEmpty then (false, (0 : Int), r1, true)
          else (true, esign * (digitsToNat p.1 : Int), p.2, true)
        | _ => (true, (0 : Int), s3, false)
      if ¬ expOk then Option.none
      else
        let mant : Int := (intPart * 10 ^ fracDs.length + digitsToNat fracDs : Nat)
        let mant := if neg then -mant else mant
        if isFloat1 ∨ isFloat2 then
          some (PyVal.floatV mant (expVal - fracDs.length), s4)
        else
          some (PyVal.intV mant, s4)

def expectLit (lit : List Char) (s : List Char) : Option (List Char) :=
  match lit, s with
  | [], _ => some s
  | l :: ls, c :: rest => if c = l then expectLit ls rest else Option.none
  | _ :: _, [] => Option.none

mutual

/-- One JSON value.  The fuel only bounds nesting depth and item count and
is always supplied generously by json_loads. -/
def parseVal : Nat → List Char → Option (PyVal × List Char)
  | 0, _ => Option.none
  | fuel + 1, s =>
    match skipWs s with
    | [] => Option.none
    | c :: rest =>
      if c = '"' then
        (parseStrBody (rest.length + 1) rest).map (fun p => (PyVal.strV p.1, p.2))
      else if c = 't' then
        (expectLit (cs "rue") rest).map (fun r => (PyVal.boolV true, r))
      else if c = 'f' then
        (expectLit (cs "alse") rest).map (fun r => (PyVal.boolV false, r))
      else if c = 'n' then
        (expectLit (cs "ull") rest).map (fun r => (PyVal.noneV, r))
      else if c = '[' then
        match skipWs rest with
        | ']' :: r2 => some (PyVal.listV [], r2)
        | r2 => (parseArrItems fuel r2).map (fun p => (PyVal.listV p.1, p.2))
      else if c = Char.ofNat 123 then
        match skipWs rest with
        | r2 =>
          if r2.headD ' ' = Char.ofNat 125 then some (PyVal.dictV [], r2.tail)
          else (parseObjItems fuel r2).map (fun p => (PyVal.dictV p.1, p.2))
      else parseNumber (c :: rest)

/-- Comma-separated array items up to the closing bracket. -/
def parseArrItems : Nat → List Char → Option (List PyVal × List Char)
  | 0, _ => Option.none
  | fuel + 1, s =>
    match parseVal fuel s with
    | Option.none => Option.none
    | some (v, r) =>
      match skipWs r with
      | ',' :: r2 => (parseArrItems fuel r2).map (fun p => (v :: p.1, p.2))
      | ']' :: r2 => some ([v], r2)
      | _ => Option.none

/-- Comma-separated key-value pairs of an object up to the closing brace. -/
def parseObjItems : Nat → List Char → Option (List (List Char × PyVal) × List Char)
  | 0, _ => Option.none
  | fuel + 1, s =>
    match skipWs s with
    | '"' :: r =>
      match parseStrBody (r.length + 1) r with
      | Option.none => Option.none
      | some (key, r1) =>
        match skipWs r1 with
        | ':' :: r2 =>
          match parseVal fuel r2 with
          | Option.none => Option.none
          | some (v, r3) =>
            match skipWs r3 with
            | ',' :: r4 => (parseObjItems fuel r4).map (fun p => ((key, v) :: p.1, p.2))
            | c2 :: r4 =>
              if c2 = Char.ofNat 125 then some ([(key, v)], r4) else Option.none
            | [] => Option.none
        | _ => Option.none
    | _ => Option.none

end

/-- Model of json.loads: a complete JSON document with nothing but
whitespace after it; failure stands for a raised JSONDecodeError. -/
def json_loads (s : List Char) : Option PyVal :=
  match parseVal (2 * s.length + 2) s with
  | some (v, r) => if (skipWs r).isEmpty then some v else Option.none
  | Option.none => Option.none

/-- Characters stripped by Python str.strip(). -/
def isPySpace (c : Char) : Bool :=
  c = ' ' ∨ c = '\t' ∨ c = '\n' ∨ c = '\r' ∨ c = Char.ofNat 11 ∨ c = Char.ofNat 12

def dropLeadingSpace : List Char → List Char
  | c :: rest => if isPySpace c then dropLeadingSpace rest else c :: rest
  | [] => []

/-- Python str.strip(): whitespace removed from both ends. -/
def pyStrip (s : List Char) : List Char :=
  dropLeadingSpace ((dropLeadingSpace s.reverse).reverse)

/-- Python s.startswith(p), on character lists. -/
def listHasPfx : List Char → List Char → Bool
  | [], _ => true
  | _ :: _, [] => false
  | p :: ps, c :: rest => p = c ∧ listHasPfx ps rest

/-- Line filtering and payload extraction of the loop in stream_chat
(api_client.py 61-73): blank lines, event lines and lines without the
data field yield nothing, otherwise the payload is the line after the
5-character data field marker, stripped. -/
def dataPayload (line : List Char) : Option (List Char) :=
  if line.isEmpty then Option.none
  else if listHasPfx (cs "event:") line then Option.none
  else if ¬ listHasPfx (cs "data:") line then Option.none
  else some (pyStrip (line.drop 5))

/-- Effect of one stream line on the decoding loop. -/
inductive LineResult where
  | skip
  | done
  | tok (t : PyVal)
  | err (e : PyErr)

/-- Token extraction from one parsed payload (api_client.py 81-101).
The first choice's delta content is preferred, then the plain text field,
then the message content, mirroring the guards of the source exactly;
attribute access on non-dict values raises, as in Python. -/
def extractText (payload : PyVal) : Except PyErr (Option PyVal) := do
  let choicesRaw ← pyGet payload (cs "choices")
  let choices := pyOr choicesRaw (PyVal.listV [])
  if ¬ truthy choices then
    return Option.none
  else
    let c0 ← pySubscriptZero choices
    let choice := pyOr c0 (PyVal.dictV [])
    let deltaRaw ← pyGet choice (cs "delta")
    let delta := pyOr deltaRaw (PyVal.dictV [])
    let text1 : PyVal :=
      if isDict delta then pyOr (dictGetD delta (cs "content")) (PyVal.strV [])
      else PyVal.strV []
    let text2 : PyVal :=
      if ¬ truthy text1 ∧ isDict choice then pyOr (dictGetD choice (cs "text")) (PyVal.strV [])
      else text1
    let text3 : PyVal :=
      if ¬ truthy text2 ∧ isDict choice then
        let message := pyOr (dictGetD choice (cs "message")) (PyVal.dictV [])
        if isDict message then pyOr (dictGetD message (cs "content")) (PyVal.strV [])
        else text2
      else text2
    if truthy text3 then return some text3 else return Option.none

/-- One iteration of the stream_chat loop on one line: filtering, the
sentinel check, json.loads with JSONDecodeError skipped, extraction. -/
def processLine (line : List Char) : LineResult :=
  match dataPayload line with
  | Option.none => LineResult.skip
  | some d =>
    if d = cs "[DONE]" then LineResult.done
    else
      match json_loads d with
      | Option.none => LineResult.skip
      | some payload =>
        match extractText payload with
        | Except.error e => LineResult.err e
        | Except.ok (some t) => LineResult.tok t
        | Except.ok Option.none => LineResult.skip

/-- The whole decoding loop over the response lines: the yielded tokens in
order, and the exception that escaped the generator if one did.  The
sentinel ends the run cleanly; an exception aborts it after the tokens
yielded so far. -/
def runLines : List (List Char) → List PyVal × Option PyErr
  | [] => ([], Option.none)
  | l :: rest =>
    match processLine l with
    | LineResult.skip => runLines rest
    | LineResult.done => ([], Option.none)
    | LineResult.err e => ([], some e)
    | LineResult.tok t =>
      let p := runLines rest
      (t :: p.1, p.2)

/-- A streaming HTTP response: status code and body lines. -/
structure HTTPResponse where
  status : Nat
  lines : List (List Char)

/-- httpx Response.is_success, the guard of raise_for_status. -/
def is_success (status : Nat) : Bool := 200 ≤ status ∧ status < 300

/-- stream_chat after the request is made: raise_for_status runs before
any line is consumed, so a non-success status raises HTTPStatusError with
no token yielded; otherwise the line loop runs. -/
def stream_chat (r : HTTPResponse) : List PyVal × Option PyErr :=
  if is_success r.status then runLines r.lines
  else ([], some PyErr.httpStatusError)

def toLowerList (s : List Char) : List Char := s.map Char.toLower

/-- Python " ".join. -/
def joinSpaces : List (List Char) → List Char
  | [] => []
  | [s] => s
  | s :: rest => s ++ ' ' :: joinSpaces rest

/-- Python substring containment, needle in haystack. -/
def containsSub (needle hay : List Char) : Bool :=
  match hay with
  | [] => needle.isEmpty
  | _ :: t => listHasPfx needle hay ∨ containsSub needle t

/-- ServerManager.ALLOWED_RECLAIM_SIGNATURES (server_manager.py 14-18). -/
def ALLOWED_RECLAIM_SIGNATURES : List (List Char) :=
  [cs "llama-server", cs "llama_cpp.server", cs "llama.cpp"]

/-- Introspection results for one process.  A field is none when reading
it raises (NoSuchProcess, AccessDenied, ZombieProcess); the table is
static for the duration of one call. -/
structure ProcInfo where
  exe : Option (List Char)
  pname : Option (List Char)
  cmdline : Option (List (List Char))

/-- ServerManager._is_allowed_reclaim_process (51-58): exe, name and the
command line are read inside one try, so any failure yields False;
otherwise the nonempty parts are lower-cased, joined with spaces, and
matched against the signature fragments. -/
def is_allowed_reclaim_process (p : ProcInfo) : Bool :=
  match p.exe, p.pname, p.cmdline with
  | some e, some n, some cl =>
    let candidates := e :: n :: cl
    let lowered := joinSpaces ((candidates.filter (fun s => ¬ s.isEmpty)).map toLowerList)
    ALLOWED_RECLAIM_SIGNATURES.any (fun sig => containsSub sig lowered)
  | _, _, _ => false

/-- ServerManager._format_process_identity (60-72): the joined command
line if nonempty, else the process name, else a fixed marker. -/
def format_process_identity (p : ProcInfo) : List Char :=
  let cmdtext := match p.cmdline with
    | some parts => joinSpaces parts
    | Option.none => []
  if ¬ cmdtext.isEmpty then cmdtext
  else
    match p.pname with
    | some n => n
    | Option.none => cs "<unknown>"

/-- One entry of psutil.net_connections: the local port if the address is
present, and the owning pid if the kernel reports one. -/
structure Conn where
  laddrPort : Option Nat
  pid : Option Nat

/-- The operating-system facts one reclaim call observes: the connection
table and, per pid, the process (none when psutil.Process raises
NoSuchProcess). -/
structure World where
  conns : List Conn
  procs : Nat → Option ProcInfo

/-- The two RuntimeError shapes _reclaim_port_processes raises: the
pid-less conflict (79-86) and the foreign-process conflict carrying the
pid and its identity text (105-111). -/
inductive ReclaimError where
  | unidentifiable (port : Nat)
  | foreign (port : Nat) (pid : Nat) (identity : List Char)

def addKill (p : Nat) : List Nat × Option ReclaimError → List Nat × Option ReclaimError
  | (ks, e) => (p :: ks, e)

/-- Decision taken for one connection. -/
inductive ReclaimDecision where
  | skip
  | kill (pid : Nat)
  | fail (e : ReclaimError)

/-- Body of the loop of _reclaim_port_processes (76-111) for a single
connection: connections off the port are skipped; a falsy pid raises in
strict mode and is skipped otherwise; a vanished process is skipped; a
tracked or recognized process is killed; anything else raises in strict
mode and is skipped otherwise. -/
def reclaimStep (procs : Nat → Option ProcInfo) (tracked : Option Nat) (port : Nat)
    (strict : Bool) (c : Conn) : ReclaimDecision :=
  match c.laddrPort with
  | Option.none => ReclaimDecision.skip
  | some lp =>
    if lp ≠ port then ReclaimDecision.skip
    else
      match c.pid with
      | Option.none =>
        if strict then ReclaimDecision.fail (ReclaimError.unidentifiable port)
        else ReclaimDecision.skip
      | some cpid =>
        if cpid = 0 then
          if strict then ReclaimDecision.fail (ReclaimError.unidentifiable port)
          else ReclaimDecision.skip
        else
          match procs cpid with
          | Option.none => ReclaimDecision.skip
          | some pinfo =>
            if tracked = some cpid then ReclaimDecision.kill cpid
            else if is_allowed_reclaim_process pinfo then ReclaimDecision.kill cpid
            else if strict then
              ReclaimDecision.fail
                (ReclaimError.foreign port cpid (format_process_identity pinfo))
            else ReclaimDecision.skip

/-- The loop of _reclaim_port_processes over the connection list: kills
accumulate in order, a raise aborts the rest of the loop. -/
def reclaimAux (procs : Nat → Option ProcInfo) (tracked : Option Nat) (port : Nat)
    (strict : Bool) : List Conn → List Nat × Option ReclaimError
  | [] => ([], Option.none)
  | c :: rest =>
    match reclaimStep procs tracked port strict c with
    | ReclaimDecision.skip => reclaimAux procs tracked port strict rest
    | ReclaimDecision.kill p => addKill p (reclaimAux procs tracked port strict rest)
    | ReclaimDecision.fail e => ([], some e)

/-- ServerManager._reclaim_port_processes (74-111): the pids terminated,
and the error raised if the loop aborted. -/
def reclaim_port_processes (w : World) (tracked : Option Nat) (port : Nat) (strict : Bool) :
    List Nat × Option ReclaimError :=
  reclaimAux w.procs tracked port strict w.conns

/-- The instance state of ServerManager (20-26): the tracked process
handle, pid and command (the handle is identified by its pid here), the
configured binary and health path, and the auto_restart flag. -/
structure MState where
  llama_server_bin : List Char
  health_path : List Char
  proc : Option Nat
  pid : Option Nat
  command : Option (List (List Char))
  auto_restart : Bool

/-- ServerManager.__init__ (20-26). -/
def initManager (bin health : List Char) : MState :=
  { llama_server_bin := bin
    health_path := health
    proc := Option.none
    pid := Option.none
    command := Option.none
    auto_restart := false }

/-- An environment mapping, ordered as Python dicts are. -/
abbrev EnvL := List (List Char × List Char)

def envLookup : EnvL → List Char → Option (List Char)
  | [], _ => Option.none
  | (k, v) :: rest, key => if k = key then some v else envLookup rest key

/-- Setting one key: replace in place if present, append otherwise, which
is how dict insertion behaves. -/
def envSet : EnvL → List Char → List Char → EnvL
  | [], k, v => [(k, v)]
  | (k0, v0) :: rest, k, v =>
    if k0 = k then (k0, v) :: rest else (k0, v0) :: envSet rest k v

/-- Python dict.update: later entries override earlier ones. -/
def pyUpdate (base upd : EnvL) : EnvL :=
  upd.foldl (fun b kv => envSet b kv.1 kv.2) base

/-- The outside facts one start call observes: the port probe answer, the
world the reclaim pass sees, the pid the spawn produces, whether the
health wait succeeds, whether the child is still running when the failure
handler polls it, and os.environ. -/
structure StartEnv where
  portOpen : Bool
  world : World
  spawnPid : Nat
  healthOk : Bool
  childStillRunning : Bool
  osEnviron : EnvL

/-- The error surfaced by start: the reclaim RuntimeError propagating out
of the probe phase, or the failure of wait_for_health. -/
inductive StartError where
  | reclaimConflict (e : ReclaimError)
  | healthFailed

/-- Observable outcome of one start call: the instance state afterwards,
the pids the reclaim pass terminated, the spawned child if any, the
environment the child was given, whether the failure path called
terminate on the child, and the error surfaced if any. -/
structure StartResult where
  state : MState
  kills : List Nat
  spawned : Option Nat
  childEnv : Option EnvL
  cleanupTerminate : Bool
  err : Option StartError

def natStr (n : Nat) : List Char := (Nat.repr n).data

/-- ServerManager.start (113-148): the child environment is os.environ
updated with extra_env; if the port probe answers occupied the reclaim
pass runs and its error propagates before anything is spawned; otherwise
the command is the binary with the injected model and port flags followed
by the caller args verbatim, the child is spawned with that environment,
tracking is overwritten, and on a failed health wait the still-running
child is terminated and the error re-raised with tracking left in place.
Only runs in which the spawn call itself succeeds are modelled. -/
def start (s : MState) (env : StartEnv) (model_path : List Char) (port : Nat)
    (args : List (List Char)) (extra_env : EnvL)
    (auto_restart strict_port_reclaim : Bool) : StartResult :=
  let childEnv := pyUpdate env.osEnviron extra_env
  let reclaimOut :=
    if env.portOpen then reclaim_port_processes env.world s.pid port strict_port_reclaim
    else ([], Option.none)
  match reclaimOut with
  | (kills, some e) =>
    { state := s
      kills := kills
      spawned := Option.none
      childEnv := Option.none
      cleanupTerminate := false
      err := some (StartError.reclaimConflict e) }
  | (kills, Option.none) =>
    let cmd := s.llama_server_bin :: cs "--model" :: model_path ::
      cs "--port" :: natStr port :: args
    let s1 : MState :=
      { s with
        proc := some env.spawnPid
        pid := some env.spawnPid
        command := some cmd
        auto_restart := auto_restart }
    if env.healthOk then
      { state := s1
        kills := kills
        spawned := some env.spawnPid
        childEnv := some childEnv
        cleanupTerminate := false
        err := Option.none }
    else
      { state := s1
        kills := kills
        spawned := some env.spawnPid
        childEnv := some childEnv
        cleanupTerminate := env.childStillRunning
        err := some StartError.healthFailed }

/-- ServerManager.stop (150-159): with a truthy pid the kill is attempted
with every exception swallowed and the tracked handle, pid and command are
cleared; with no pid tracked nothing happens.  The function is total, so
stop never raises whatever the kill attempt did; the flag records whether
the kill attempt raised and is unused because the except block drops it. -/
def stop (s : MState) (_killRaises : Bool) : MState :=
  match s.pid with
  | some p =>
    if p ≠ 0 then
      { s with
        proc := Option.none
        pid := Option.none
        command := Option.none }
    else s
  | Option.none => s

/-- States the ServerManager lifecycle can actually reach: the pid is a
real OS pid when present, and clearing is consistent. -/
def WellFormedState (s : MState) : Prop :=
  s.pid ≠ some 0 ∧ (s.pid = Option.none → s.proc = Option.none ∧ s.command = Option.none)

/-- Backoff update of wait_for_health (line 180): backoff becomes
min(backoff * 1.5, 5.0) after each failed attempt. -/
def nextBackoff (b : ℚ) : ℚ := min (b * (3 / 2)) 5

/-- The sleep interval before the n-th retry: the configured interval at
first (line 170), then the capped growth. -/
def backoffSeq (interval : ℚ) : Nat → ℚ
  | 0 => interval
  | n + 1 => nextBackoff (backoffSeq interval n)

/-- Concrete instances used by the closed theorems below. -/

def c1VanishedWorld : World :=
  { conns := [{ laddrPort := some 8080, pid := some 42 }]
    procs := fun _ => Option.none }

def c1ForeignInfo : ProcInfo :=
  { exe := some (cs "/usr/sbin/nginx")
    pname := some (cs "nginx")
    cmdline := some [cs "nginx", cs "-g", cs "daemon off;"] }

def c1ForeignConn : Conn := { laddrPort := some 8080, pid := some 99 }

def c1ForeignWorld : World :=
  { conns := [c1ForeignConn]
    procs := fun p => if p = 99 then some c1ForeignInfo else Option.none }

def c2PrevState : MState :=
  { llama_server_bin := cs "llama-server"
    health_path := cs "/health"
    proc := some 10
    pid := some 10
    command := some [cs "llama-server"]
    auto_restart := false }

def c2Env : StartEnv :=
  { portOpen := false
    world := { conns := [], procs := fun _ => Option.none }
    spawnPid := 20
    healthOk := true
    childStillRunning := false
    osEnviron := [] }

def c3State : MState := initManager (cs "llama-server") (cs "/health")

def c3Env : StartEnv :=
  { portOpen := false
    world := { conns := [], procs := fun _ => Option.none }
    spawnPid := 33
    healthOk := false
    childStillRunning := true
    osEnviron := [] }

def c4Line1 : List Char := cs "data: \x7b\"choices\":[\x7b\"delta\":\x7b\"content\":\"Hel\"\x7d\x7d]\x7d"

def c4Line2 : List Char := cs "data: \x7b\"choices\":[\x7b\"delta\":\x7b\"content\":\"lo\"\x7d\x7d]\x7d"

def c4LineDone : List Char := cs "data: [DONE]"

def c5Fallback : List Char := cs "data: \x7b\"choices\":[\x7b\"text\":\"fallback-a\"\x7d]\x7d"

def c5NotJson : List Char := cs "data: \x7bnot-json\x7d"

def c5Done : List Char := cs "data: [DONE]"

def c6State : MState := initManager (cs "llama-server") (cs "/health")

def c6Env : StartEnv :=
  { portOpen := false
    world := { conns := [], procs := fun _ => Option.none }
    spawnPid := 20
    healthOk := true
    childStillRunning := false
    osEnviron := [] }

def c7State : MState := initManager (cs "llama-server") (cs "/health")

def c7Env : StartEnv :=
  { portOpen := false
    world := { conns := [], procs := fun _ => Option.none }
    spawnPid := 21
    healthOk := true
    childStillRunning := false
    osEnviron := [(cs "PATH", cs "/usr/bin")] }

def c8State : MState :=
  { llama_server_bin := cs "llama-server"
    health_path := cs "/health"
    proc := some 5
    pid := some 5
    command := some [cs "llama-server", cs "--port", cs "8080"]
    auto_restart := false }

def c10Resp : HTTPResponse :=
  { status := 500
    lines := [cs "data: \x7b\"choices\":[\x7b\"delta\":\x7b\"content\":\"x\"\x7d\x7d]\x7d"] }

theorem addKill_fst (p : Nat) (x : List Nat × Option ReclaimError) :
    (addKill p x).1 = p :: x.1 := rfl

theorem addKill_snd (p : Nat) (x : List Nat × Option ReclaimError) :
    (addKill p x).2 = x.2 := rfl

theorem step_fail_unknown (procs : Nat → Option ProcInfo) (tracked : Option Nat)
    (port : Nat) (c : Conn) (pid : Nat) (pinfo : ProcInfo)
    (hl : c.laddrPort = some port) (hpid : c.pid = some pid) (h0 : pid ≠ 0)
    (hproc : procs pid = some pinfo) (htr : tracked ≠ some pid)
    (hna : is_allowed_reclaim_process pinfo = false) :
    reclaimStep procs tracked port true c =
      ReclaimDecision.fail (ReclaimError.foreign port pid (format_process_identity pinfo)) := by
  simp [reclaimStep, hl, hpid, h0, hproc, htr, hna]

theorem step_fail_unreadable (procs : Nat → Option ProcInfo) (tracked : Option Nat)
    (port : Nat) (c : Conn) (hl : c.laddrPort = some port)
    (hpid : c.pid = Option.none ∨ c.pid = some 0) :
    reclaimStep procs tracked port true c =
      ReclaimDecision.fail (ReclaimError.unidentifiable port) := by
  rcases hpid with h | h <;> simp [reclaimStep, hl, h]

theorem step_not_kill_unknown (procs : Nat → Option ProcInfo) (tracked : Option Nat)
    (port : Nat) (strict : Bool) (pid : Nat) (pinfo : ProcInfo)
    (hproc : procs pid = some pinfo) (htr : tracked ≠ some pid)
    (hna : is_allowed_reclaim_process pinfo = false) (c : Conn) :
    reclaimStep procs tracked port strict c ≠ ReclaimDecision.kill pid := by
  intro h
  rcases hcl : c.laddrPort with _ | lp
  · simp [reclaimStep, hcl] at h
  · by_cases hlp : lp = port
    · subst hlp
      rcases hcp : c.pid with _ | cpid
      · cases strict <;> simp [reclaimStep, hcl, hcp] at h
      · by_cases h0 : cpid = 0
        · cases strict <;> simp [reclaimStep, hcl, hcp, h0] at h
        · rcases hpc : procs cpid with _ | pinfo2
          · simp [reclaimStep, hcl, hcp, h0, hpc] at h
          · by_cases htrk : tracked = some cpid
            · simp [reclaimStep, hcl, hcp, h0, hpc, htrk] at h
              subst h
              exact htr htrk
            · by_cases hal : is_allowed_reclaim_process pinfo2 = true
              · simp [reclaimStep, hcl, hcp, h0, hpc, htrk, hal] at h
                subst h
                rw [hproc] at hpc
                injection hpc with hpi
                subst hpi
                simp [hna] at hal
              · cases strict <;>
                  simp [reclaimStep, hcl, hcp, h0, hpc, htrk, hal] at h
    · simp [reclaimStep, hcl, hlp] at h

theorem reclaim_fail_isSome (procs : Nat → Option ProcInfo) (tracked : Option Nat)
    (port : Nat) (strict : Bool) (conns : List Conn) (c : Conn) (e : ReclaimError)
    (hc : c ∈ conns) (hf : reclaimStep procs tracked port strict c = ReclaimDecision.fail e) :
    (reclaimAux procs tracked port strict conns).2.isSome = true := by
  induction conns with
  | nil => cases hc
  | cons hd tl ih =>
    rcases List.mem_cons.mp hc with rfl | hmem
    · simp [reclaimAux, hf]
    · cases hs : reclaimStep procs tracked port strict hd
      · simpa [reclaimAux, hs] using ih hmem
      · rename_i p
        rw [show reclaimAux procs tracked port strict (hd :: tl) =
          addKill p (reclaimAux procs tracked port strict tl) by simp [reclaimAux, hs],
          addKill_snd]
        exact ih hmem
      · simp [reclaimAux, hs]

theorem reclaim_no_kill_unknown (procs : Nat → Option ProcInfo) (tracked : Option Nat)
    (port : Nat) (strict : Bool) (pid : Nat) (pinfo : ProcInfo) (conns : List Conn)
    (hproc : procs pid = some pinfo) (htr : tracked ≠ some pid)
    (hna : is_allowed_reclaim_process pinfo = false) :
    pid ∉ (reclaimAux procs tracked port strict conns).1 := by
  induction conns with
  | nil => simp [reclaimAux]
  | cons hd tl ih =>
    cases hs : reclaimStep procs tracked port strict hd
    · simpa [reclaimAux, hs] using ih
    · rename_i p
      rw [show reclaimAux procs tracked port strict (hd :: tl) =
        addKill p (reclaimAux procs tracked port strict tl) by simp [reclaimAux, hs],
        addKill_fst]
      intro hmem
      rcases List.mem_cons.mp hmem with rfl | hmem2
      · exact step_not_kill_unknown procs tracked port strict pid pinfo hproc htr hna hd hs
      · exact ih hmem2
    · simp [reclaimAux, hs]

/-- C1 (amended).  In strict mode, a connection on the target port whose
pid the kernel does not report makes the reclaim pass raise; a connection
whose process still exists and is neither the tracked pid nor a recognized
server binary (including processes none of whose metadata is readable,
since the allow check then answers False) makes it raise, its per
connection decision being the conflict error that carries that pid and its
formatted identity, and that pid is never terminated by the pass.  (A
connection whose process has already vanished when it is inspected is
skipped silently, which is what refutes the claim as stated.) -/
theorem C1_strict_unknown_conflict :
    ∀ (w : World) (tracked : Option Nat) (port : Nat) (c : Conn),
      c ∈ w.conns → c.laddrPort = some port →
      (((c.pid = Option.none ∨ c.pid = some 0) →
        (reclaim_port_processes w tracked port true).2.isSome = true) ∧
      (∀ (pid : Nat) (pinfo : ProcInfo), c.pid = some pid → pid ≠ 0 →
        w.procs pid = some pinfo → tracked ≠ some pid →
        is_allowed_reclaim_process pinfo = false →
        (reclaim_port_processes w tracked port true).2.isSome = true ∧
        pid ∉ (reclaim_port_processes w tracked port true).1 ∧
        reclaimStep w.procs tracked port true c =
          ReclaimDecision.fail
            (ReclaimError.foreign port pid (format_process_identity pinfo)))) := by
  intro w tracked port c hc hl
  constructor
  · intro hpid
    exact reclaim_fail_isSome w.procs tracked port true w.conns c _ hc
      (step_fail_unreadable w.procs tracked port c hl hpid)
  · intro pid pinfo hpid h0 hproc htr hna
    refine ⟨?_, ?_, ?_⟩
    · exact reclaim_fail_isSome w.procs tracked port true w.conns c _ hc
        (step_fail_unknown w.procs tracked port c pid pinfo hl hpid h0 hproc htr hna)
    · exact reclaim_no_kill_unknown w.procs tracked port true pid pinfo w.conns hproc htr hna
    · exact step_fail_unknown w.procs tracked port c pid pinfo hl hpid h0 hproc htr hna

/-- C1 counterexample.  A connection on the target port owned by pid 42
whose process cannot be read at all (psutil.Process raises NoSuchProcess)
is neither tracked nor recognized, yet strict reclaim raises no conflict
error for it: the call returns silently with no kill and no error, against
the claim that every such process produces a conflict error. -/
theorem C1_counterexample :
    reclaim_port_processes c1VanishedWorld Option.none 8080 true = ([], Option.none) := rfl

/-- C1 witness: a readable foreign process (nginx on the target port)
makes strict reclaim raise, and its pid is not terminated. -/
theorem C1_witness :
    (reclaim_port_processes c1ForeignWorld Option.none 8080 true).2.isSome = true ∧
    99 ∉ (reclaim_port_processes c1ForeignWorld Option.none 8080 true).1 := by
  have h := (C1_strict_unknown_conflict c1ForeignWorld Option.none 8080 c1ForeignConn
    (by simp [c1ForeignWorld]) rfl).2 99 c1ForeignInfo rfl (by decide) rfl (by decide) rfl
  exact ⟨h.1, h.2.1⟩

theorem envLookup_envSet_ne (b : EnvL) (k v k' : List Char) (h : k' ≠ k) :
    envLookup (envSet b k v) k' = envLookup b k' := by
  have hne : k ≠ k' := fun hh => h hh.symm
  induction b with
  | nil => simp [envSet, envLookup, hne]
  | cons hd tl ih =>
    obtain ⟨k0, v0⟩ := hd
    by_cases hk : k0 = k
    · subst hk
      simp [envSet, envLookup, hne]
    · simp [envSet, envLookup, hk, ih]

theorem envLookup_pyUpdate_not_mem (base upd : EnvL) (k : List Char)
    (h : k ∉ upd.map Prod.fst) :
    envLookup (pyUpdate base upd) k = envLookup base k := by
  induction upd generalizing base with
  | nil => rfl
  | cons hd tl ih =>
    obtain ⟨k0, v0⟩ := hd
    simp only [List.map_cons, List.mem_cons] at h
    push_neg at h
    have step : pyUpdate base ((k0, v0) :: tl) = pyUpdate (envSet base k0 v0) tl := rfl
    rw [step, ih (envSet base k0 v0) h.2, envLookup_envSet_ne base k0 v0 k h.1]

theorem start_fields (s : MState) (env : StartEnv) (mp : List Char) (port : Nat)
    (args : List (List Char)) (extra : EnvL) (ar strict : Bool)
    (hre : (if env.portOpen then reclaim_port_processes env.world s.pid port strict
            else ([], Option.none)).2 = Option.none) :
    (start s env mp port args extra ar strict).spawned = some env.spawnPid ∧
    (start s env mp port args extra ar strict).childEnv =
      some (pyUpdate env.osEnviron extra) ∧
    (start s env mp port args extra ar strict).kills =
      (if env.portOpen then reclaim_port_processes env.world s.pid port strict
       else ([], Option.none)).1 ∧
    (start s env mp port args extra ar strict).state.pid = some env.spawnPid ∧
    (start s env mp port args extra ar strict).state.proc = some env.spawnPid ∧
    (start s env mp port args extra ar strict).state.command =
      some (s.llama_server_bin :: cs "--model" :: mp ::
        cs "--port" :: natStr port :: args) ∧
    (start s env mp port args extra ar strict).err =
      (if env.healthOk then Option.none else some StartError.healthFailed) ∧
    (start s env mp port args extra ar strict).cleanupTerminate =
      (if env.healthOk then false else env.childStillRunning) := by
  rcases hrc : (if env.portOpen then reclaim_port_processes env.world s.pid port strict
      else ([], Option.none)) with ⟨ks, e⟩
  rw [hrc] at hre
  simp only at hre
  subst hre
  cases hhe : env.healthOk <;> simp [start, hrc, hhe]

/-- C2 (amended).  start never stops a previously tracked process up
front: the only terminations a start call performs are the ones of the
reclaim pass, which runs only when the port probe answers occupied — so
when the target port is free, a tracked process is never terminated and
the tracking is simply overwritten with the new child's pid. -/
theorem C2_start_kills_only_via_reclaim :
    ∀ (s : MState) (env : StartEnv) (mp : List Char) (port : Nat)
      (args : List (List Char)) (extra : EnvL) (ar strict : Bool),
      ((start s env mp port args extra ar strict).kills =
        (if env.portOpen then (reclaim_port_processes env.world s.pid port strict).1
         else [])) ∧
      (env.portOpen = false →
        (start s env mp port args extra ar strict).kills = [] ∧
        (start s env mp port args extra ar strict).state.pid = some env.spawnPid) := by
  intro s env mp port args extra ar strict
  constructor
  · cases hpo : env.portOpen
    · cases hhe : env.healthOk <;> simp [start, hpo, hhe]
    · rcases hrc : reclaim_port_processes env.world s.pid port strict with ⟨ks, e⟩
      cases e <;> cases hhe : env.healthOk <;> simp [start, hpo, hrc, hhe]
  · intro hpo
    obtain h := start_fields s env mp port args extra ar strict (by simp [hpo])
    exact ⟨by simpa [hpo] using h.2.2.1, h.2.2.2.1⟩

/-- C2 counterexample.  A Supervisor tracking pid 10 starts a new server
on a free port: the call succeeds, spawns pid 20 and overwrites the
tracking, yet terminates nothing — the previously tracked process is not
stopped before the probe or the spawn, against the claim. -/
theorem C2_counterexample :
    (start c2PrevState c2Env (cs "/models/m.gguf") 8080 [] [] false true).kills = [] ∧
    (start c2PrevState c2Env (cs "/models/m.gguf") 8080 [] [] false true).err =
      Option.none ∧
    (start c2PrevState c2Env (cs "/models/m.gguf") 8080 [] [] false true).state.pid =
      some 20 :=
  ⟨rfl, rfl, rfl⟩

/-- C2 witness: the amended theorem applied to a concrete free-port run. -/
theorem C2_witness :
    c2Env.portOpen = false ∧
    (start c2PrevState c2Env (cs "/m2.gguf") 9090 [] [] false true).kills = [] :=
  ⟨rfl, ((C2_start_kills_only_via_reclaim c2PrevState c2Env (cs "/m2.gguf") 9090
    [] [] false true).2 rfl).1⟩

/-- C3 (confirmed).  Whenever a start call reaches the spawn (no reclaim
error) and the health wait then fails, the error is surfaced as the
start failure, the child had been spawned, and the cleanup handler calls
terminate on the child exactly when it is still running when polled. -/
theorem C3_failed_start_terminates_child :
    ∀ (s : MState) (env : StartEnv) (mp : List Char) (port : Nat)
      (args : List (List Char)) (extra : EnvL) (ar strict : Bool),
      (if env.portOpen then reclaim_port_processes env.world s.pid port strict
       else ([], Option.none)).2 = Option.none →
      env.healthOk = false →
      (start s env mp port args extra ar strict).err = some StartError.healthFailed ∧
      (start s env mp port args extra ar strict).spawned = some env.spawnPid ∧
      (start s env mp port args extra ar strict).cleanupTerminate =
        env.childStillRunning := by
  intro s env mp port args extra ar strict hre hh
  obtain h := start_fields s env mp port args extra ar strict hre
  refine ⟨?_, h.1, ?_⟩
  · rw [h.2.2.2.2.2.2.1, hh]
    rfl
  · rw [h.2.2.2.2.2.2.2, hh]
    rfl

/-- C3 witness: a concrete failed start with the child still running has
the terminate attempt recorded before the error is surfaced. -/
theorem C3_witness :
    c3Env.healthOk = false ∧
    (start c3State c3Env (cs "/m.gguf") 8080 [] [] false true).err =
      some StartError.healthFailed ∧
    (start c3State c3Env (cs "/m.gguf") 8080 [] [] false true).cleanupTerminate = true :=
  ⟨rfl, (C3_failed_start_terminates_child c3State c3Env (cs "/m.gguf") 8080 [] [] false true
    rfl rfl).1,
   (C3_failed_start_terminates_child c3State c3Env (cs "/m.gguf") 8080 [] [] false true
    rfl rfl).2.2⟩

/-- C6 (amended).  start performs no conflict check on the caller's extra
args at all: for every args list — whatever flags it contains — a run
whose port is free and whose health wait succeeds raises no error, spawns
the child, and records a command in which the args follow the injected
model and port flags verbatim. -/
theorem C6_no_conflict_check_on_args :
    ∀ (s : MState) (env : StartEnv) (mp : List Char) (port : Nat)
      (args : List (List Char)) (extra : EnvL) (ar strict : Bool),
      (if env.portOpen then reclaim_port_processes env.world s.pid port strict
       else ([], Option.none)).2 = Option.none →
      env.healthOk = true →
      (start s env mp port args extra ar strict).err = Option.none ∧
      (start s env mp port args extra ar strict).spawned = some env.spawnPid ∧
      (start s env mp port args extra ar strict).state.command =
        some (s.llama_server_bin :: cs "--model" :: mp ::
          cs "--port" :: natStr port :: args) := by
  intro s env mp port args extra ar strict hre hh
  obtain h := start_fields s env mp port args extra ar strict hre
  refine ⟨?_, h.1, h.2.2.2.2.2.1⟩
  rw [h.2.2.2.2.2.2.1, hh]
  rfl

/-- C6 counterexample.  A start call smuggling both a port flag and a
model flag through the extra args is not rejected: no error is raised and
the child is spawned, against the claim that the conflict is detected
before any process is touched. -/
theorem C6_counterexample :
    (start c6State c6Env (cs "/models/m.gguf") 8080
      [cs "--port", cs "9999", cs "--model", cs "/models/other.gguf"] [] false true).err =
      Option.none ∧
    (start c6State c6Env (cs "/models/m.gguf") 8080
      [cs "--port", cs "9999", cs "--model", cs "/models/other.gguf"] [] false true).spawned =
      some 20 :=
  ⟨rfl, rfl⟩

/-- C6 witness: the amended theorem applied to args carrying a port flag. -/
theorem C6_witness :
    c6Env.healthOk = true ∧
    (start c6State c6Env (cs "/m.gguf") 8080 [cs "--port", cs "7777"] [] false true).err =
      Option.none :=
  ⟨rfl, (C6_no_conflict_check_on_args c6State c6Env (cs "/m.gguf") 8080
    [cs "--port", cs "7777"] [] false true rfl rfl).1⟩

/-- C7 (amended).  The child environment is exactly the parent environment
updated with the caller's extra entries; any variable the extra entries do
not set — the PORT variable included — keeps exactly the parent's value or
absence, because start never injects PORT. -/
theorem C7_child_env_no_port_injection :
    ∀ (s : MState) (env : StartEnv) (mp : List Char) (port : Nat)
      (args : List (List Char)) (extra : EnvL) (ar strict : Bool) (k : List Char),
      (if env.portOpen then reclaim_port_processes env.world s.pid port strict
       else ([], Option.none)).2 = Option.none →
      k ∉ extra.map Prod.fst →
      (start s env mp port args extra ar strict).childEnv =
        some (pyUpdate env.osEnviron extra) ∧
      envLookup (pyUpdate env.osEnviron extra) k = envLookup env.osEnviron k := by
  intro s env mp port args extra ar strict k hre hk
  exact ⟨(start_fields s env mp port args extra ar strict hre).2.1,
    envLookup_pyUpdate_not_mem env.osEnviron extra k hk⟩

/-- C7 counterexample.  A parent environment without PORT and no extra
entries: the child is spawned and its environment still has no PORT
variable, against the claim that PORT is set whenever the caller has not
already set it. -/
theorem C7_counterexample :
    (start c7State c7Env (cs "/m.gguf") 8080 [] [] false true).spawned = some 21 ∧
    ((start c7State c7Env (cs "/m.gguf") 8080 [] [] false true).childEnv.map
      (fun e => envLookup e (cs "PORT"))) = some Option.none :=
  ⟨rfl, rfl⟩

/-- C7 witness: the amended theorem applied to the PORT variable. -/
theorem C7_witness :
    (cs "PORT") ∉ ([] : EnvL).map Prod.fst ∧
    envLookup (pyUpdate c7Env.osEnviron []) (cs "PORT") =
      envLookup c7Env.osEnviron (cs "PORT") :=
  ⟨by simp, (C7_child_env_no_port_injection c7State c7Env (cs "/m.gguf") 8080 [] [] false true
    (cs "PORT") rfl (by simp)).2⟩

/-- C8 (confirmed).  stop is total (it returns for every state and every
outcome of the kill attempt, so it never raises), idempotent, a no-op when
nothing is tracked, and on every reachable state it leaves all tracked
identity — handle, pid and command — cleared, whatever the kill attempt
did. -/
theorem C8_stop_idempotent_total :
    ∀ (s : MState) (k k' : Bool),
      stop (stop s k) k' = stop s k ∧
      (s.pid = Option.none → stop s k = s) ∧
      (WellFormedState s →
        (stop s k).pid = Option.none ∧ (stop s k).proc = Option.none ∧
        (stop s k).command = Option.none) := by
  intro s k k'
  rcases hp : s.pid with _ | p
  · refine ⟨?_, ?_, ?_⟩
    · simp [stop, hp]
    · intro _
      simp [stop, hp]
    · intro hwf
      obtain ⟨hpc, hcc⟩ := hwf.2 hp
      simp [stop, hp, hpc, hcc]
  · by_cases h0 : p = 0
    · subst h0
      refine ⟨?_, ?_, ?_⟩
      · simp [stop, hp]
      · intro hc
        exact Option.noConfusion hc
      · intro hwf
        exact absurd hp hwf.1
    · refine ⟨?_, ?_, ?_⟩
      · simp [stop, hp, h0]
      · intro hc
        exact Option.noConfusion hc
      · intro _
        simp [stop, hp, h0]

/-- C8 witness: a Supervisor tracking pid 5 is fully cleared by stop even
when the kill attempt raised, and a second stop changes nothing. -/
theorem C8_witness :
    WellFormedState c8State ∧
    ((stop c8State true).pid = Option.none ∧ (stop c8State true).proc = Option.none ∧
      (stop c8State true).command = Option.none) ∧
    stop (stop c8State true) false = stop c8State true := by
  have hwf : WellFormedState c8State := ⟨by simp [c8State], by simp [c8State]⟩
  exact ⟨hwf, (C8_stop_idempotent_total c8State true false).2.2 hwf,
    (C8_stop_idempotent_total c8State true false).1⟩

theorem backoffSeq_bounds (i : ℚ) (h0 : 0 ≤ i) (h5 : i ≤ 5) :
    ∀ n, 0 ≤ backoffSeq i n ∧ backoffSeq i n ≤ 5 := by
  intro n
  induction n with
  | zero => exact ⟨h0, h5⟩
  | succ n ih =>
    refine ⟨?_, ?_⟩
    · show 0 ≤ nextBackoff (backoffSeq i n)
      exact le_min (by nlinarith [ih.1]) (by norm_num)
    · show nextBackoff (backoffSeq i n) ≤ 5
      exact min_le_right _ _

/-- C9 (amended).  The sleep sequence starts at the configured interval
and each next interval is min(prev * 1.5, 5); provided the configured
initial interval lies between 0 and the 5-second cap, successive
intervals never decrease and never exceed the cap. -/
theorem C9_backoff_monotone_capped :
    ∀ (i : ℚ), 0 ≤ i → i ≤ 5 → ∀ n : Nat,
      backoffSeq i (n + 1) = min (backoffSeq i n * (3 / 2)) 5 ∧
      backoffSeq i n ≤ backoffSeq i (n + 1) ∧
      backoffSeq i n ≤ 5 := by
  intro i h0 h5 n
  obtain ⟨hn0, hn5⟩ := backoffSeq_bounds i h0 h5 n
  refine ⟨rfl, ?_, hn5⟩
  show backoffSeq i n ≤ nextBackoff (backoffSeq i n)
  exact le_min (by nlinarith [hn0]) hn5

/-- C9 counterexample.  With the initial interval configured as 10, the
first sleep is 10, exceeding the 5-second cap, and the second sleep is 5,
a decrease — against the claim that intervals never decrease and never
exceed the cap on every run. -/
theorem C9_counterexample :
    backoffSeq 10 1 < backoffSeq 10 0 ∧ 5 < backoffSeq 10 0 := by
  have h1 : backoffSeq 10 1 = 5 := by
    show nextBackoff (10 : ℚ) = 5
    rw [nextBackoff]
    norm_num
  have h0 : backoffSeq 10 0 = 10 := rfl
  rw [h1, h0]
  norm_num

/-- C9 witness: the amended theorem applied to the default interval 1 at
the third step. -/
theorem C9_witness :
    (0 : ℚ) ≤ 1 ∧ (1 : ℚ) ≤ 5 ∧
    (backoffSeq 1 3 = min (backoffSeq 1 2 * (3 / 2)) 5 ∧
      backoffSeq 1 2 ≤ backoffSeq 1 3 ∧ backoffSeq 1 2 ≤ 5) :=
  ⟨by norm_num, by norm_num, C9_backoff_monotone_capped 1 (by norm_num) (by norm_num) 2⟩

theorem runLines_done_stop (l : List Char) (h : processLine l = LineResult.done)
    (pre rest : List (List Char)) :
    runLines (pre ++ l :: rest) = runLines (pre ++ [l]) := by
  induction pre with
  | nil => simp [runLines, h]
  | cons p ps ih =>
    cases hp : processLine p <;> simp [runLines, hp, ih]

/-- C4 (confirmed).  Feeding the decoder the two delta-content lines and
the sentinel yields exactly the tokens Hel and lo and a clean end of
stream; and in general, once a line whose payload is the sentinel is
reached, everything after it is never read: the run equals the run that
ends at the sentinel. -/
theorem C4_decoder_round_trip :
    runLines [c4Line1, c4Line2, c4LineDone] =
      ([PyVal.strV (cs "Hel"), PyVal.strV (cs "lo")], Option.none) ∧
    (∀ (l : List Char) (pre rest : List (List Char)),
      processLine l = LineResult.done →
      runLines (pre ++ l :: rest) = runLines (pre ++ [l])) :=
  ⟨rfl, fun l pre rest h => runLines_done_stop l h pre rest⟩

/-- C4 witness: the sentinel line is a done line, and a stream with lines
after the sentinel decodes as if it ended at the sentinel. -/
theorem C4_witness :
    processLine c4LineDone = LineResult.done ∧
    runLines ([c4Line1] ++ c4LineDone :: [c4Line2]) =
      runLines ([c4Line1] ++ [c4LineDone]) :=
  ⟨rfl, C4_decoder_round_trip.2 c4LineDone [c4Line1] [c4Line2] rfl⟩

theorem processLine_skip_of_parse_fail (line d : List Char)
    (h1 : dataPayload line = some d) (h2 : d ≠ cs "[DONE]")
    (h3 : json_loads d = Option.none) : processLine line = LineResult.skip := by
  simp [processLine, h1, h2, h3]

/-- C5 (amended).  A data line whose payload is not the sentinel and fails
to parse as JSON (json.loads raises) produces no token and no failure and
decoding continues with the remaining lines; in particular the malformed
line followed by the fallback-text frame and the sentinel yields exactly
the fallback-a token.  (A payload that parses as JSON but is not an
object aborts the stream instead, which is what refutes the claim as
stated.) -/
theorem C5_parse_failure_skipped :
    (∀ (line d : List Char) (rest : List (List Char)),
      dataPayload line = some d → d ≠ cs "[DONE]" → json_loads d = Option.none →
      runLines (line :: rest) = runLines rest) ∧
    runLines [c5NotJson, c5Fallback, c5Done] =
      ([PyVal.strV (cs "fallback-a")], Option.none) := by
  refine ⟨?_, rfl⟩
  intro line d rest h1 h2 h3
  simp [runLines, processLine_skip_of_parse_fail line d h1 h2 h3]

/-- C5 counterexample.  The payload 5 parses as JSON but is not an event
record: payload.get then raises AttributeError, so the stream aborts with
an exception and yields no token at all — against the claim that every
line whose payload fails to parse as a structured event record is skipped
without raising and decoding continues. -/
theorem C5_counterexample :
    runLines [cs "data: 5",
      cs "data: \x7b\"choices\":[\x7b\"text\":\"fallback-b\"\x7d]\x7d",
      cs "data: [DONE]"] = ([], some PyErr.attributeError) := rfl

/-- C5 witness: the malformed frame of the claim is skipped by the
amended theorem. -/
theorem C5_witness :
    dataPayload c5NotJson = some (cs "\x7bnot-json\x7d") ∧
    json_loads (cs "\x7bnot-json\x7d") = Option.none ∧
    runLines (c5NotJson :: [c5Fallback, c5Done]) = runLines [c5Fallback, c5Done] :=
  ⟨rfl, rfl, C5_parse_failure_skipped.1 c5NotJson (cs "\x7bnot-json\x7d") [c5Fallback, c5Done]
    rfl (by decide) rfl⟩

/-- C10 (confirmed).  raise_for_status runs before the line loop, so a
response whose status is not a 2xx success makes stream_chat raise the
HTTP status error having yielded no token: an error response never
produces a partial token sequence. -/
theorem C10_http_error_no_tokens :
    ∀ (r : HTTPResponse), ¬ (200 ≤ r.status ∧ r.status < 300) →
      stream_chat r = ([], some PyErr.httpStatusError) := by
  intro r h
  have hs : is_success r.status = false := by
    simp only [is_success, decide_eq_false_iff_not]
    exact h
  simp [stream_chat, hs]

/-- C10 witness: a 500 response with a well-formed body line yields no
token and raises the status error. -/
theorem C10_witness :
    ¬ (200 ≤ c10Resp.status ∧ c10Resp.status < 300) ∧
    stream_chat c10Resp = ([], some PyErr.httpStatusError) :=
  ⟨by decide, C10_http_error_no_tokens c10Resp (by decide)⟩
